import Mathlib

/-!
Shallow embedding of the Volcano-Engine websocket TTS bridge (Go sources:
`metrics.go` and the main server file) and proofs of the specification
claims about it.

Conventions of the embedding:
* Go byte slices become `List Nat` (each element a byte value 0..255).
* Go `int` / `int64` counters become `Int`; Go float64 values that are only
  compared against exactly representable constants become `ℚ`.
* the Go truncating integer division is `Int.tdiv`.
* External inputs that the code reads from the environment (wall-clock
  timestamps, the websocket read results, gzip output bytes) are passed in
  as explicit parameters.
-/

namespace VolcTTS

/-! ## Metrics registry (`metrics.go`) -/

/-- Embedding of `ErrorRecord` from metrics.go: a timestamped error entry. -/
structure ErrorRecord where
  timestamp : String
  errorType : String
  message : String
  deriving DecidableEq, Repr

/-- The mutable fields of `Metrics` from metrics.go that the claims concern.
`startTime` (wall clock) is omitted; the mutex is the concurrency discipline,
not data. -/
structure Metrics where
  requestCount : Int
  successCount : Int
  errorCount : Int
  activeConnections : Int
  currentCalls : Int
  totalResponseTime : Int
  errors : List ErrorRecord
  deriving DecidableEq, Repr

/-- Embedding of `initMetrics` from metrics.go: zeroed counters, empty error log. -/
def initMetrics : Metrics :=
  { requestCount := 0, successCount := 0, errorCount := 0
    activeConnections := 0, currentCalls := 0, totalResponseTime := 0
    errors := [] }

/-- Embedding of `Metrics.RecordRequest` from metrics.go (lines 45-56): increments
`requestCount` and `totalResponseTime` unconditionally, and exactly one of
`successCount` / `errorCount` depending on `success`. -/
def RecordRequest (m : Metrics) (success : Bool) (responseTimeMs : Int) : Metrics :=
  { m with
    requestCount := m.requestCount + 1
    totalResponseTime := m.totalResponseTime + responseTimeMs
    successCount := if success then m.successCount + 1 else m.successCount
    errorCount := if success then m.errorCount else m.errorCount + 1 }

/-- Embedding of `Metrics.RecordError` from metrics.go (lines 59-74): appends the record,
then if the log exceeds 100 entries keeps only the last 100
(`m.errors = m.errors[len(m.errors)-100:]`). The timestamped record is passed
in whole, the timestamp being environment input (`time.Now()`). -/
def RecordError (m : Metrics) (r : ErrorRecord) : Metrics :=
  let es := m.errors ++ [r]
  { m with errors := if es.length > 100 then es.drop (es.length - 100) else es }

/-- Embedding of `Metrics.GetSuccessRate` from metrics.go (lines 114-122), as an exact
rational: 100 when no request was recorded, else successCount/requestCount*100. -/
def GetSuccessRate (m : Metrics) : ℚ :=
  if m.requestCount = 0 then 100
  else (m.successCount : ℚ) / (m.requestCount : ℚ) * 100

/-- Embedding of `Metrics.GetAvgResponseTime` from metrics.go (lines 125-133): 0 when no
request was recorded, else the Go truncating division
`totalResponseTime / requestCount`. -/
def GetAvgResponseTime (m : Metrics) : Int :=
  if m.requestCount = 0 then 0
  else m.totalResponseTime.tdiv m.requestCount

/-- Folding a sequence of `RecordRequest` calls over a starting state. -/
def applyRequests (m : Metrics) (calls : List (Bool × Int)) : Metrics :=
  calls.foldl (fun s c => RecordRequest s c.1 c.2) m

/-- Folding a sequence of `RecordError` calls over a starting state. -/
def applyErrors (m : Metrics) (rs : List ErrorRecord) : Metrics :=
  rs.foldl RecordError m

/-! ## Frame codec (`parseByteDanceResponse`, `defaultHeader`, request build) -/

/-- The error taxonomy of the synthesis path (the `Err*` values of the main
file and the parse-error strings of `parseByteDanceResponse`). -/
inductive SynthErr where
  | textTooLong
  | tooManyConcurrentCalls
  | dialFailed
  | writeFailed
  | readFailed
  | parseFailed
  | frameTooShort
  | headerSizeExceedsData
  | audioInsufficientData
  | errorInsufficientData
  | frontendInsufficientData
  | unknownMessageType (t : Nat)
  | serverError (code : Int)
  deriving DecidableEq, Repr

/-- Embedding of `SynthResp` from the main file: accumulated audio bytes and the
terminal-chunk flag. -/
structure SynthResp where
  Audio : List Nat
  IsLast : Bool
  deriving DecidableEq, Repr

/-- Big-endian `uint32` of four bytes, reinterpreted as the Go `int32`
(`int32(binary.BigEndian.Uint32(b))`). -/
def beInt32 (b0 b1 b2 b3 : Nat) : Int :=
  let u : Nat := (b0 % 256) * 2 ^ 24 + (b1 % 256) * 2 ^ 16 + (b2 % 256) * 2 ^ 8 + b3 % 256
  if u ≥ 2 ^ 31 then (u : Int) - 2 ^ 32 else (u : Int)

/-- Byte `i` of a frame, with default 0 (the source indexes only after the
length check, so the default is never reached on the paths proved). -/
def byteAt (res : List Nat) (i : Nat) : Nat := res.getD i 0

/-- The messageType dispatch of `parseByteDanceResponse` (main file lines
1309-1365), applied to the payload extracted after the header. Each Go path
that sets a non-nil `err` becomes `.error`. -/
def dispatchMessage (messageType flags _compression : Nat) (payload : List Nat) :
    Except SynthErr SynthResp :=
  if messageType = 0xb then
    if flags = 0 then .ok ⟨[], false⟩
    else if payload.length < 8 then .error .audioInsufficientData
    else
      let seq := beInt32 (byteAt payload 0) (byteAt payload 1) (byteAt payload 2) (byteAt payload 3)
      .ok ⟨payload.drop 8, decide (seq < 0)⟩
  else if messageType = 0xf then
    if payload.length < 8 then .error .errorInsufficientData
    else
      let code := beInt32 (byteAt payload 0) (byteAt payload 1) (byteAt payload 2) (byteAt payload 3)
      .error (.serverError code)
  else if messageType = 0xc then
    if payload.length < 4 then .error .frontendInsufficientData
    else .ok ⟨[], false⟩
  else .error (.unknownMessageType messageType)

/-- Embedding of `parseByteDanceResponse` from the main file (lines 1287-1368): header
validation, nibble extraction, payload slicing, then messageType dispatch. -/
def parseByteDanceResponse (res : List Nat) : Except SynthErr SynthResp :=
  if res.length < 4 then .error .frameTooShort
  else
    let headSize := byteAt res 0 &&& 0x0f
    let messageType := byteAt res 1 >>> 4
    let flags := byteAt res 1 &&& 0x0f
    let compression := byteAt res 2 &&& 0x0f
    if headSize * 4 > res.length then .error .headerSizeExceedsData
    else dispatchMessage messageType flags compression (res.drop (headSize * 4))

/-- Embedding of `defaultHeader` from the main file (line 1180). -/
def defaultHeader : List Nat := [0x11, 0x10, 0x11, 0x00]

/-- Embedding of `binary.BigEndian.PutUint32` of `uint32(n)`: four big-endian bytes. -/
def putUint32BE (n : Nat) : List Nat :=
  let m := n % 2 ^ 32
  [m / 2 ^ 24 % 256, m / 2 ^ 16 % 256, m / 2 ^ 8 % 256, m % 256]

/-- The request assembly of `streamSynthesize` (main file lines 1398-1407):
header, 4-byte big-endian length of the compressed body, then the body.
`input` is the gzip-compressed JSON body (gzip and JSON marshalling are
library code outside this repository, so the body is a parameter). -/
def buildClientRequest (input : List Nat) : List Nat :=
  defaultHeader ++ putUint32BE input.length ++ input

/-- The text-length validation of `setupByteDanceInput` (main file lines
1218-1223) combined with the request assembly: fails with TextTooLong when
`len(text) > MaxTextLength`, otherwise produces the assembled frame for the
compressed body. -/
def encodeClientRequest (textLen maxTextLen : Nat) (compressedBody : List Nat) :
    Except SynthErr (List Nat) :=
  if textLen > maxTextLen then .error .textTooLong
  else .ok (buildClientRequest compressedBody)

/-! ## Receive loop and `streamSynthesize` pipeline -/

/-- Result of one `c.ReadMessage()` call: either a frame, or a gorilla
websocket `*CloseError` with its close code, or any other error. -/
inductive ReadError where
  | closeError (code : Int)
  | otherError
  deriving DecidableEq, Repr

/-- One event of the upstream read script. -/
inductive ReadEvent where
  | ok (msg : List Nat)
  | err (e : ReadError)
  deriving DecidableEq, Repr

/-- Embedding of `websocket.IsUnexpectedCloseError` from the gorilla/websocket library
used at main file line 1444: true iff the error is a `*CloseError` whose
code is not in the expected list. -/
def IsUnexpectedCloseError (e : ReadError) (expected : List Int) : Bool :=
  match e with
  | .closeError c => !(expected.contains c)
  | .otherError => false

/-- gorilla `websocket.CloseGoingAway`. -/
def CloseGoingAway : Int := 1001

/-- gorilla `websocket.CloseAbnormalClosure`. -/
def CloseAbnormalClosure : Int := 1006

/-- The receive loop of `streamSynthesize` (main file lines 1437-1463),
driven by a finite script of read results. Returns `none` when the script is
exhausted with the loop still running, otherwise the loop outcome, paired
with the number of reads consumed. On a read error with non-empty
accumulated audio and an unexpected-close-class error (code not GoingAway
or AbnormalClosure), the partial buffer is returned as success; otherwise
the read error becomes ReadFailed. -/
def receiveLoop : List ReadEvent → List Nat → Option (Except SynthErr (List Nat)) × Nat
  | [], _ => (none, 0)
  | .err e :: _, audio =>
      if audio.length > 0 ∧ IsUnexpectedCloseError e [CloseGoingAway, CloseAbnormalClosure] then
        (some (.ok audio), 1)
      else (some (.error .readFailed), 1)
  | .ok msg :: rest, audio =>
      match parseByteDanceResponse msg with
      | .error _ => (some (.error .parseFailed), 1)
      | .ok resp =>
          let audio := audio ++ resp.Audio
          if resp.IsLast then (some (.ok audio), 1)
          else
            let r := receiveLoop rest audio
            (r.1, r.2 + 1)

/-- Network operations performed by `streamSynthesize`, for ordering
statements. -/
inductive NetOp where
  | dial
  | write
  | read
  deriving DecidableEq, Repr

/-- The `streamSynthesize` pipeline (main file lines 1372-1466) with its
environment made explicit: `semFree` is whether the non-blocking semaphore
acquire succeeds, `compressedBody` the gzip output, `dialOk`/`writeOk` the
network outcomes, `reads` the upstream read script. Returns the call
outcome (`none` when the read script ran out with the loop still waiting)
and the trace of network operations attempted, in order. -/
def streamSynthesize (semFree : Bool) (textLen maxTextLen : Nat)
    (compressedBody : List Nat) (dialOk writeOk : Bool) (reads : List ReadEvent) :
    Option (Except SynthErr (List Nat)) × List NetOp :=
  if semFree = false then (some (.error .tooManyConcurrentCalls), [])
  else
    match encodeClientRequest textLen maxTextLen compressedBody with
    | .error e => (some (.error e), [])
    | .ok _ =>
        if dialOk = false then (some (.error .dialFailed), [.dial])
        else if writeOk = false then (some (.error .writeFailed), [.dial, .write])
        else
          let r := receiveLoop reads []
          (r.1, .dial :: .write :: List.replicate r.2 .read)

/-! ## Admission gate (buffered-channel semaphore) -/

/-- The buffered channel `semaphore = make(chan struct{}, MaxConcurrentCalls)`
(main file line 1213) viewed as a counting gate: `held` tokens queued out of
`capacity`. -/
structure Semaphore where
  capacity : Nat
  held : Nat
  deriving DecidableEq, Repr

/-- The non-blocking acquire `select { case semaphore <- struct{}{} ...
default ... }` of `streamSynthesize` (main file lines 1377-1389): succeeds
iff the channel has room, never blocks. -/
def tryAcquire (s : Semaphore) : Option Semaphore :=
  if s.held < s.capacity then some { s with held := s.held + 1 } else none

/-- The release `<-semaphore` on the deferred exit path. -/
def release (s : Semaphore) : Semaphore :=
  { s with held := s.held - 1 }

/-! ## Boundary-layer speed handling (`handleOpenAITTSRequest`) -/

/-- The speed processing of `handleOpenAITTSRequest` (main file lines
1584-1597): default 1.0 when the field is absent (zero), then reject the
request with HTTP 400 when outside [0.5, 2.0]. `none` means the handler
returns the 400 error without invoking synthesis; `some v` means
`streamSynthesize` is invoked with speed `v`. float64 values are embedded
as rationals (exact for every float64, and the comparisons used are
order comparisons against exactly representable constants). -/
def handleSpeed (speed : ℚ) : Option ℚ :=
  let s := if speed = 0 then 1 else speed
  if s < 1 / 2 ∨ s > 2 then none else some s

/-- Modelled from the spec (section 6): the clamping behaviour the claim
asserts of the boundary layer — default 1.0 when zero, then clamp into
[0.5, 2.0]. Used only to compare the claim wording against `handleSpeed`. -/
def clampSpeedSpec (speed : ℚ) : ℚ :=
  let s := if speed = 0 then 1 else speed
  max (1 / 2) (min 2 s)

/-- Modelled from the spec (section 4.2): the class of read errors the
claim calls "connection-closed/abnormal-closure class" — any websocket
close error. Used only to compare the claim wording against the code
`IsUnexpectedCloseError` test. -/
def closeClassErrorSpec (e : ReadError) : Bool :=
  match e with
  | .closeError _ => true
  | .otherError => false

/-- The audio bytes contributed by a list of frames, in arrival order, as
the receive loop accumulates them (a frame that fails to parse contributes
nothing; such frames abort the loop before accumulating). -/
def audioAcc (msgs : List (List Nat)) : List Nat :=
  (msgs.map fun m =>
    match parseByteDanceResponse m with
    | .ok r => r.Audio
    | .error _ => []).flatten

/-! ## Helper lemmas -/

/-- The counter invariant of the metrics registry. -/
def MetricsInv (m : Metrics) : Prop :=
  m.requestCount = m.successCount + m.errorCount ∧
  0 ≤ m.successCount ∧ 0 ≤ m.errorCount

theorem metricsInv_init : MetricsInv initMetrics := by
  refine ⟨rfl, le_refl 0, le_refl 0⟩

theorem metricsInv_step (m : Metrics) (s : Bool) (t : Int) (h : MetricsInv m) :
    MetricsInv (RecordRequest m s t) := by
  obtain ⟨h1, h2, h3⟩ := h
  cases s <;> refine ⟨?_, ?_, ?_⟩ <;> simp [RecordRequest] <;> omega

theorem metricsInv_reachable (calls : List (Bool × Int)) :
    MetricsInv (applyRequests initMetrics calls) := by
  have key : ∀ (cs : List (Bool × Int)) (m : Metrics), MetricsInv m →
      MetricsInv (cs.foldl (fun s c => RecordRequest s c.1 c.2) m) := by
    intro cs
    induction cs with
    | nil => intro m hm; exact hm
    | cons c cs ih =>
        intro m hm
        exact ih _ (metricsInv_step m c.1 c.2 hm)
  exact key calls initMetrics metricsInv_init

theorem successRate_bounds (m : Metrics) (h : MetricsInv m) :
    0 ≤ GetSuccessRate m ∧ GetSuccessRate m ≤ 100 := by
  obtain ⟨h1, h2, h3⟩ := h
  unfold GetSuccessRate
  by_cases hz : m.requestCount = 0
  · simp [hz]
  · simp only [hz, if_false]
    have hrpos : (0 : Int) < m.requestCount := by omega
    have hrq : (0 : ℚ) < (m.requestCount : ℚ) := by exact_mod_cast hrpos
    have hsle : (m.successCount : ℚ) ≤ (m.requestCount : ℚ) := by
      have : m.successCount ≤ m.requestCount := by omega
      exact_mod_cast this
    have hs0 : (0 : ℚ) ≤ (m.successCount : ℚ) := by exact_mod_cast h2
    constructor
    · positivity
    · have hdiv : (m.successCount : ℚ) / (m.requestCount : ℚ) ≤ 1 :=
        (div_le_one hrq).mpr hsle
      calc (m.successCount : ℚ) / (m.requestCount : ℚ) * 100
          ≤ 1 * 100 := by
            exact mul_le_mul_of_nonneg_right hdiv (by norm_num)
        _ = 100 := by norm_num

/-- The errors field after a fold of `RecordError` calls over the empty log
is the suffix of the last 100 records. -/
theorem applyErrors_errors (rs : List ErrorRecord) :
    (applyErrors initMetrics rs).errors = rs.drop (rs.length - 100) := by
  induction rs using List.reverseRecOn with
  | nil => rfl
  | append_singleton rs r ih =>
      unfold applyErrors at ih ⊢
      rw [List.foldl_append]
      show (RecordError (List.foldl RecordError initMetrics rs) r).errors = _
      simp only [RecordError, ih]
      by_cases h : rs.length < 100
      · have e1 : rs.length - 100 = 0 := by omega
        rw [e1, List.drop_zero]
        rw [if_neg (by simp only [List.length_append, List.length_cons, List.length_nil]; omega)]
        rw [List.length_append, List.length_cons, List.length_nil,
          show rs.length + (0 + 1) - 100 = 0 by omega, List.drop_zero]
      · push_neg at h
        have hdlen : (rs.drop (rs.length - 100)).length = 100 := by
          rw [List.length_drop]; omega
        have hlen : (rs.drop (rs.length - 100) ++ [r]).length = 101 := by
          rw [List.length_append, hdlen, List.length_cons, List.length_nil]
        rw [if_pos (by rw [hlen]; omega), hlen]
        have h1 : (1 : ℕ) ≤ (rs.drop (rs.length - 100)).length := by omega
        rw [show (101 : ℕ) - 100 = 1 from rfl,
          List.drop_append_of_le_length h1, List.drop_drop,
          List.length_append, List.length_cons, List.length_nil,
          List.drop_append_of_le_length (show rs.length + (0 + 1) - 100 ≤ rs.length by omega),
          show rs.length - 100 + 1 = rs.length + (0 + 1) - 100 by omega]

/-! ## Claim theorems -/

/-- C7: `RecordRequest` increments `requestCount` and `totalResponseTime`
unconditionally and exactly one of `successCount` / `errorCount` by outcome;
from the initial state, `RecordRequest true 100` followed by
`RecordRequest false 200` yields requestCount 2, success rate 50 and average
response time 150 through the derived getters. -/
theorem recordRequest_counts_and_derived (m : Metrics) (s : Bool) (t : Int) :
    (RecordRequest m s t).requestCount = m.requestCount + 1 ∧
    (RecordRequest m s t).totalResponseTime = m.totalResponseTime + t ∧
    (RecordRequest m s t).successCount =
      (if s then m.successCount + 1 else m.successCount) ∧
    (RecordRequest m s t).errorCount =
      (if s then m.errorCount else m.errorCount + 1) ∧
    (applyRequests initMetrics [(true, 100), (false, 200)]).requestCount = 2 ∧
    GetSuccessRate (applyRequests initMetrics [(true, 100), (false, 200)]) = 50 ∧
    GetAvgResponseTime (applyRequests initMetrics [(true, 100), (false, 200)]) = 150 := by
  refine ⟨rfl, rfl, rfl, rfl, by decide, ?_, by decide⟩
  norm_num [applyRequests, RecordRequest, initMetrics, GetSuccessRate]

/-- C10: starting from the initial state, every reachable metrics state
satisfies requestCount = successCount + errorCount with non-negative
counters, each `RecordRequest` call keeps the counters non-decreasing and
preserves the equation, and `GetSuccessRate` always lies in [0, 100]. -/
theorem metrics_counter_invariant (calls : List (Bool × Int)) :
    (applyRequests initMetrics calls).requestCount =
        (applyRequests initMetrics calls).successCount +
          (applyRequests initMetrics calls).errorCount ∧
    0 ≤ (applyRequests initMetrics calls).successCount ∧
    0 ≤ (applyRequests initMetrics calls).errorCount ∧
    0 ≤ (applyRequests initMetrics calls).requestCount ∧
    (∀ (s : Bool) (t : Int),
      (applyRequests initMetrics calls).requestCount ≤
          (RecordRequest (applyRequests initMetrics calls) s t).requestCount ∧
      (applyRequests initMetrics calls).successCount ≤
          (RecordRequest (applyRequests initMetrics calls) s t).successCount ∧
      (applyRequests initMetrics calls).errorCount ≤
          (RecordRequest (applyRequests initMetrics calls) s t).errorCount ∧
      (RecordRequest (applyRequests initMetrics calls) s t).requestCount =
          (RecordRequest (applyRequests initMetrics calls) s t).successCount +
            (RecordRequest (applyRequests initMetrics calls) s t).errorCount) ∧
    0 ≤ GetSuccessRate (applyRequests initMetrics calls) ∧
    GetSuccessRate (applyRequests initMetrics calls) ≤ 100 := by
  obtain ⟨h1, h2, h3⟩ := metricsInv_reachable calls
  obtain ⟨b1, b2⟩ := successRate_bounds _ (metricsInv_reachable calls)
  refine ⟨h1, h2, h3, by omega, ?_, b1, b2⟩
  intro s t
  cases s <;> refine ⟨?_, ?_, ?_, ?_⟩ <;> simp [RecordRequest] <;> omega

/-- C8: the error log retains at most 100 records and evicts the oldest
first: from the initial state the log always equals the suffix of the most
recent 100 records in arrival order, and after 105 calls exactly the last
100 remain. -/
theorem recordError_ring_buffer (rs : List ErrorRecord) :
    (applyErrors initMetrics rs).errors = rs.drop (rs.length - 100) ∧
    (applyErrors initMetrics rs).errors.length ≤ 100 ∧
    (rs.length = 105 → (applyErrors initMetrics rs).errors = rs.drop 5) := by
  refine ⟨applyErrors_errors rs, ?_, ?_⟩
  · rw [applyErrors_errors rs, List.length_drop]; omega
  · intro h105
    rw [applyErrors_errors rs, h105]

/-- Witness for C8: 105 concrete `RecordError` calls leave the last 100
records. -/
theorem recordError_ring_buffer_witness :
    (List.replicate 105
        ({ timestamp := "t", errorType := "e", message := "m" } : ErrorRecord)).length = 105 ∧
    (applyErrors initMetrics
        (List.replicate 105
          ({ timestamp := "t", errorType := "e", message := "m" } : ErrorRecord))).errors =
      (List.replicate 105
        ({ timestamp := "t", errorType := "e", message := "m" } : ErrorRecord)).drop 5 :=
  ⟨by simp, (recordError_ring_buffer _).2.2 (by simp)⟩

/-- C6: decode fails with an InvalidFrame-class error when the frame is
shorter than 4 bytes or when the declared header size (low nibble of byte 0
times 4) exceeds the frame length; otherwise it dispatches on the payload,
which is the bytes after `headerSizeWords*4`. -/
theorem parse_header_validation (res : List Nat) :
    (res.length < 4 → parseByteDanceResponse res = .error .frameTooShort) ∧
    (4 ≤ res.length → res.length < (byteAt res 0 &&& 0x0f) * 4 →
      parseByteDanceResponse res = .error .headerSizeExceedsData) ∧
    (4 ≤ res.length → (byteAt res 0 &&& 0x0f) * 4 ≤ res.length →
      parseByteDanceResponse res =
        dispatchMessage (byteAt res 1 >>> 4) (byteAt res 1 &&& 0x0f)
          (byteAt res 2 &&& 0x0f) (res.drop ((byteAt res 0 &&& 0x0f) * 4))) := by
  unfold parseByteDanceResponse
  refine ⟨fun h => by rw [if_pos h], fun h4 hh => ?_, fun h4 hh => ?_⟩
  · rw [if_neg (by omega), if_pos (by omega)]
  · rw [if_neg (by omega), if_neg (by omega)]

/-- Witness for C6: a 2-byte frame is rejected as too short; a 4-byte frame
declaring a 2-word (8-byte) header is rejected as exceeding the data; a
well-formed 4-byte frame dispatches on the bytes after the header. -/
theorem parse_header_validation_witness :
    ([0x11, 0xb0] : List Nat).length < 4 ∧
    parseByteDanceResponse [0x11, 0xb0] = .error .frameTooShort ∧
    4 ≤ ([0x12, 0xb0, 0x10, 0x00] : List Nat).length ∧
    ([0x12, 0xb0, 0x10, 0x00] : List Nat).length <
      (byteAt [0x12, 0xb0, 0x10, 0x00] 0 &&& 0x0f) * 4 ∧
    parseByteDanceResponse [0x12, 0xb0, 0x10, 0x00] = .error .headerSizeExceedsData ∧
    parseByteDanceResponse [0x11, 0xb0, 0x10, 0x00] =
      dispatchMessage 0xb 0 1 [] := by
  refine ⟨by decide, (parse_header_validation [0x11, 0xb0]).1 (by decide),
    by decide, by decide,
    (parse_header_validation [0x12, 0xb0, 0x10, 0x00]).2.1 (by decide) (by decide), ?_⟩
  have h := (parse_header_validation [0x11, 0xb0, 0x10, 0x00]).2.2 (by decide) (by decide)
  rw [h]
  rfl

/-- C2: for a frame of messageType 0xB whose header passed validation:
flags 0 decodes to the empty acknowledgment (no audio, not last); otherwise
a payload shorter than 8 bytes is rejected, and a payload of at least
8 bytes decodes to audio bytes `payload[8:]` with isLast exactly when the
big-endian int32 of `payload[0:4]` is negative. -/
theorem parse_audio_frame (res : List Nat) (h4 : 4 ≤ res.length)
    (hh : (byteAt res 0 &&& 0x0f) * 4 ≤ res.length)
    (hmt : byteAt res 1 >>> 4 = 0xb) :
    (byteAt res 1 &&& 0x0f = 0 → parseByteDanceResponse res = .ok ⟨[], false⟩) ∧
    (byteAt res 1 &&& 0x0f ≠ 0 →
      (res.drop ((byteAt res 0 &&& 0x0f) * 4)).length < 8 →
      parseByteDanceResponse res = .error .audioInsufficientData) ∧
    (byteAt res 1 &&& 0x0f ≠ 0 →
      8 ≤ (res.drop ((byteAt res 0 &&& 0x0f) * 4)).length →
      parseByteDanceResponse res =
        .ok ⟨(res.drop ((byteAt res 0 &&& 0x0f) * 4)).drop 8,
          decide (beInt32 (byteAt (res.drop ((byteAt res 0 &&& 0x0f) * 4)) 0)
            (byteAt (res.drop ((byteAt res 0 &&& 0x0f) * 4)) 1)
            (byteAt (res.drop ((byteAt res 0 &&& 0x0f) * 4)) 2)
            (byteAt (res.drop ((byteAt res 0 &&& 0x0f) * 4)) 3) < 0)⟩) := by
  have hbase := (parse_header_validation res).2.2 h4 hh
  rw [hbase]
  unfold dispatchMessage
  rw [if_pos hmt]
  refine ⟨fun hf => by rw [if_pos hf], fun hf hlen => ?_, fun hf hlen => ?_⟩
  · rw [if_neg hf, if_pos hlen]
  · rw [if_neg hf, if_neg (by omega)]

/-- Witness for C2: an audio frame with flags 1, sequence number 5 and audio
bytes [0xde, 0xad] decodes to those bytes with isLast false; sequence number
-1 (0xffffffff) decodes with isLast true; flags 0 decodes to the empty
acknowledgment. -/
theorem parse_audio_frame_witness :
    parseByteDanceResponse
        ([0x11, 0xb1, 0x10, 0x00] ++ [0, 0, 0, 5] ++ [0, 0, 0, 2] ++ [0xde, 0xad]) =
      .ok ⟨[0xde, 0xad], false⟩ ∧
    parseByteDanceResponse
        ([0x11, 0xb1, 0x10, 0x00] ++ [0xff, 0xff, 0xff, 0xff] ++ [0, 0, 0, 1] ++ [0x42]) =
      .ok ⟨[0x42], true⟩ ∧
    parseByteDanceResponse [0x11, 0xb0, 0x10, 0x00] = .ok ⟨[], false⟩ := by
  have h1 := (parse_audio_frame
    ([0x11, 0xb1, 0x10, 0x00] ++ [0, 0, 0, 5] ++ [0, 0, 0, 2] ++ [0xde, 0xad])
    (by decide) (by decide) (by decide)).2.2 (by decide) (by decide)
  have h2 := (parse_audio_frame
    ([0x11, 0xb1, 0x10, 0x00] ++ [0xff, 0xff, 0xff, 0xff] ++ [0, 0, 0, 1] ++ [0x42])
    (by decide) (by decide) (by decide)).2.2 (by decide) (by decide)
  have h3 := (parse_audio_frame [0x11, 0xb0, 0x10, 0x00]
    (by decide) (by decide) (by decide)).1 (by decide)
  refine ⟨?_, ?_, h3⟩
  · rw [h1]; rfl
  · rw [h2]; rfl

/-- C3: for every text passing the length check, the encoded outbound
request is exactly the fixed header 0x11 0x10 0x11 0x00, then the 4-byte
big-endian length of the compressed body, then the body; the header nibbles
carry protocolVersion 1, headerSizeWords 1, messageType 1
(full-client-request), flags 0, serialization 1 (JSON), compression 1
(gzip) and reserved 0, and the 4-byte length field decodes back to the body
length. -/
theorem encode_request_layout (textLen maxTextLen : Nat) (body : List Nat)
    (h : textLen ≤ maxTextLen) :
    encodeClientRequest textLen maxTextLen body =
      .ok ([0x11, 0x10, 0x11, 0x00] ++ putUint32BE body.length ++ body) ∧
    (putUint32BE body.length).length = 4 ∧
    byteAt defaultHeader 0 >>> 4 = 1 ∧
    byteAt defaultHeader 0 &&& 0x0f = 1 ∧
    byteAt defaultHeader 1 >>> 4 = 1 ∧
    byteAt defaultHeader 1 &&& 0x0f = 0 ∧
    byteAt defaultHeader 2 >>> 4 = 1 ∧
    byteAt defaultHeader 2 &&& 0x0f = 1 ∧
    byteAt defaultHeader 3 = 0 ∧
    (body.length < 2 ^ 32 →
      byteAt (putUint32BE body.length) 0 * 2 ^ 24 +
        byteAt (putUint32BE body.length) 1 * 2 ^ 16 +
        byteAt (putUint32BE body.length) 2 * 2 ^ 8 +
        byteAt (putUint32BE body.length) 3 = body.length) := by
  refine ⟨?_, rfl, by decide, by decide, by decide, by decide, by decide,
    by decide, by decide, ?_⟩
  · unfold encodeClientRequest
    rw [if_neg (by omega)]
    rfl
  · intro hlt
    unfold putUint32BE byteAt
    simp only [List.getD_cons_zero, List.getD_cons_succ]
    omega

/-- Witness for C3: a 5-character text under a limit of 10 with a 3-byte
compressed body yields the concrete framed request. -/
theorem encode_request_layout_witness :
    (5 : Nat) ≤ 10 ∧
    encodeClientRequest 5 10 [0xaa, 0xbb, 0xcc] =
      .ok ([0x11, 0x10, 0x11, 0x00] ++ putUint32BE 3 ++ [0xaa, 0xbb, 0xcc]) ∧
    ([0xaa, 0xbb, 0xcc] : List Nat).length < 2 ^ 32 ∧
    byteAt (putUint32BE 3) 0 * 2 ^ 24 + byteAt (putUint32BE 3) 1 * 2 ^ 16 +
      byteAt (putUint32BE 3) 2 * 2 ^ 8 + byteAt (putUint32BE 3) 3 = 3 := by
  refine ⟨by omega, (encode_request_layout 5 10 [0xaa, 0xbb, 0xcc] (by omega)).1,
    by decide, ?_⟩
  have h := (encode_request_layout 5 10 [0xaa, 0xbb, 0xcc] (by omega)).2.2.2.2.2.2.2.2.2
    (by decide)
  simpa using h

/-- Counterexample to C1: after one audio chunk (bytes [0xaa]) has been
accumulated, a read failure that is a close error with code 1006
(CloseAbnormalClosure) — squarely in the claim
"connection-closed/abnormal-closure class" — makes the loop return
ReadFailed rather than the partial buffer, because the code
`IsUnexpectedCloseError(err, CloseGoingAway, CloseAbnormalClosure)` test is
false for the codes 1001 and 1006 themselves. -/
theorem receiveLoop_abnormal_close_counterexample :
    closeClassErrorSpec (.closeError CloseAbnormalClosure) = true ∧
    parseByteDanceResponse
        ([0x11, 0xb1, 0x10, 0x00] ++ [0, 0, 0, 1] ++ [0, 0, 0, 1] ++ [0xaa]) =
      .ok ⟨[0xaa], false⟩ ∧
    (receiveLoop
        [.ok ([0x11, 0xb1, 0x10, 0x00] ++ [0, 0, 0, 1] ++ [0, 0, 0, 1] ++ [0xaa]),
          .err (.closeError CloseAbnormalClosure)] []).1 =
      some (.error .readFailed) := by
  refine ⟨rfl, rfl, rfl⟩

/-- C1 amended: for a run of non-terminal audio frames followed by a read
failure, the loop returns the accumulated audio as success exactly when the
accumulated audio is non-empty **and** the failure is a websocket close
error whose code is neither CloseGoingAway (1001) nor CloseAbnormalClosure
(1006); every other read failure — including any failure before audio was
accumulated, non-close errors, and close codes 1001/1006 — yields
ReadFailed. -/
theorem receiveLoop_close_policy (msgs : List (List Nat)) (e : ReadError)
    (h : ∀ m ∈ msgs, ∃ a, parseByteDanceResponse m = .ok ⟨a, false⟩) :
    ∀ audio : List Nat,
      (receiveLoop (msgs.map .ok ++ [.err e]) audio).1 =
        if audio ++ audioAcc msgs ≠ [] ∧
            IsUnexpectedCloseError e [CloseGoingAway, CloseAbnormalClosure] = true
        then some (.ok (audio ++ audioAcc msgs))
        else some (.error .readFailed) := by
  induction msgs with
  | nil =>
      intro audio
      simp only [List.map_nil, List.nil_append, audioAcc, List.flatten_nil,
        List.append_nil]
      by_cases hb : IsUnexpectedCloseError e [CloseGoingAway, CloseAbnormalClosure] = true
      · by_cases ha : audio = []
        · subst ha
          simp [receiveLoop, hb]
        · have hl : audio.length > 0 := List.length_pos.mpr ha
          simp [receiveLoop, hb, ha, hl]
      · simp [receiveLoop, hb]
  | cons m msgs ih =>
      intro audio
      obtain ⟨a, ha⟩ := h m (List.mem_cons_self m msgs)
      have hrest : ∀ m' ∈ msgs, ∃ a', parseByteDanceResponse m' = .ok ⟨a', false⟩ :=
        fun m' hm' => h m' (List.mem_cons_of_mem m hm')
      have ihh := ih hrest (audio ++ a)
      have hstep : (receiveLoop ((m :: msgs).map ReadEvent.ok ++ [.err e]) audio).1 =
          (receiveLoop (msgs.map ReadEvent.ok ++ [.err e]) (audio ++ a)).1 := by
        simp [receiveLoop, ha]
      rw [hstep, ihh]
      have hacc : audioAcc (m :: msgs) = a ++ audioAcc msgs := by
        simp [audioAcc, ha]
      rw [hacc, List.append_assoc]

/-- Witness for C1 amended: a normal-closure (code 1000) read failure after
one audio chunk returns the partial buffer as success. -/
theorem receiveLoop_close_policy_witness :
    (∀ m ∈ [[0x11, 0xb1, 0x10, 0x00] ++ [0, 0, 0, 1] ++ [0, 0, 0, 1] ++ [0xaa]],
      ∃ a, parseByteDanceResponse m = .ok ⟨a, false⟩) ∧
    (receiveLoop
        [.ok ([0x11, 0xb1, 0x10, 0x00] ++ [0, 0, 0, 1] ++ [0, 0, 0, 1] ++ [0xaa]),
          .err (.closeError 1000)] []).1 =
      some (.ok [0xaa]) := by
  have h : ∀ m ∈ [[0x11, 0xb1, 0x10, 0x00] ++ [0, 0, 0, 1] ++ [0, 0, 0, 1] ++ [0xaa]],
      ∃ a, parseByteDanceResponse m = .ok ⟨a, false⟩ := by
    intro m hm
    rw [List.mem_singleton] at hm
    subst hm
    exact ⟨[0xaa], rfl⟩
  refine ⟨h, ?_⟩
  have hc := receiveLoop_close_policy
    [[0x11, 0xb1, 0x10, 0x00] ++ [0, 0, 0, 1] ++ [0, 0, 0, 1] ++ [0xaa]]
    (.closeError 1000) h []
  rw [show ([[0x11, 0xb1, 0x10, 0x00] ++ [0, 0, 0, 1] ++ [0, 0, 0, 1] ++ [0xaa]].map
      ReadEvent.ok ++ [.err (.closeError 1000)]) =
    [.ok ([0x11, 0xb1, 0x10, 0x00] ++ [0, 0, 0, 1] ++ [0, 0, 0, 1] ++ [0xaa]),
      .err (.closeError 1000)] from rfl] at hc
  rw [hc]
  rfl

/-- C4: once past the admission gate, a text longer than MaxTextLength makes
`streamSynthesize` fail with TextTooLong with an empty network trace — no
dial, write or read is attempted, whatever the network environment would
have produced. -/
theorem textTooLong_before_network (textLen maxTextLen : Nat) (body : List Nat)
    (dialOk writeOk : Bool) (reads : List ReadEvent)
    (h : maxTextLen < textLen) :
    streamSynthesize true textLen maxTextLen body dialOk writeOk reads =
      (some (.error .textTooLong), []) := by
  have henc : encodeClientRequest textLen maxTextLen body = .error .textTooLong := by
    unfold encodeClientRequest
    rw [if_pos h]
  unfold streamSynthesize
  rw [henc]
  simp

/-- Witness for C4: an 11-character text over a 10-character limit fails
with TextTooLong and the network trace is empty. -/
theorem textTooLong_before_network_witness :
    (10 : Nat) < 11 ∧
    streamSynthesize true 11 10 [0x01] true true [.err .otherError] =
      (some (.error .textTooLong), []) :=
  ⟨by omega, textTooLong_before_network 11 10 [0x01] true true [.err .otherError] (by omega)⟩

/-- C5: with the gate saturated (held = capacity), a further non-blocking
acquire fails immediately; after one release, exactly one further acquire
succeeds — it restores the saturated state, on which the next acquire fails
again. -/
theorem admission_gate_saturation (s : Semaphore)
    (hfull : s.held = s.capacity) (hpos : 0 < s.capacity) :
    tryAcquire s = none ∧
    tryAcquire (release s) = some { s with held := s.capacity } ∧
    tryAcquire { s with held := s.capacity } = none := by
  obtain ⟨cap, held⟩ := s
  simp only at hfull hpos
  subst hfull
  refine ⟨?_, ?_, ?_⟩
  · simp [tryAcquire]
  · have h1 : release ⟨held, held⟩ = ⟨held, held - 1⟩ := rfl
    have h2 : held - 1 < held := by omega
    rw [h1]
    simp [tryAcquire, h2]
    omega
  · simp [tryAcquire]

/-- Witness for C5: a capacity-2 gate holding 2 tickets rejects an acquire,
accepts exactly one acquire after a release, and rejects the next. -/
theorem admission_gate_saturation_witness :
    (⟨2, 2⟩ : Semaphore).held = (⟨2, 2⟩ : Semaphore).capacity ∧
    0 < (⟨2, 2⟩ : Semaphore).capacity ∧
    tryAcquire ⟨2, 2⟩ = none ∧
    tryAcquire (release ⟨2, 2⟩) = some ⟨2, 2⟩ ∧
    tryAcquire ⟨2, 2⟩ = none := by
  have h := admission_gate_saturation ⟨2, 2⟩ rfl (by decide)
  exact ⟨rfl, by decide, h.1, h.2.1, h.2.2⟩

/-- Counterexample to C9: at requested speed 3 the claimed clamping would
invoke synthesis with speed 2.0, but the handler instead rejects the
request with HTTP 400 and never invokes synthesis. -/
theorem handleSpeed_clamp_counterexample :
    handleSpeed 3 = none ∧ clampSpeedSpec 3 = 2 ∧
    handleSpeed 3 ≠ some (clampSpeedSpec 3) := by
  have h1 : handleSpeed 3 = none := by norm_num [handleSpeed]
  have h2 : clampSpeedSpec 3 = 2 := by norm_num [clampSpeedSpec]
  exact ⟨h1, h2, by rw [h1]; simp⟩

/-- C9 amended: the boundary layer defaults an absent (zero) speed to 1.0
and rejects with HTTP 400 — without invoking synthesis — any speed outside
[0.5, 2.0]; consequently whenever synthesis is invoked its speed lies in
[0.5, 2.0] and equals the requested speed after the zero default. -/
theorem handleSpeed_range (speed : ℚ) :
    (∀ v, handleSpeed speed = some v →
      1 / 2 ≤ v ∧ v ≤ 2 ∧ v = (if speed = 0 then 1 else speed)) ∧
    handleSpeed 0 = some 1 ∧
    (handleSpeed speed = none ↔
      ((if speed = 0 then 1 else speed) < 1 / 2 ∨
        2 < (if speed = 0 then 1 else speed))) := by
  refine ⟨?_, by norm_num [handleSpeed], ?_⟩
  · intro v hv
    unfold handleSpeed at hv
    by_cases hcond : (if speed = 0 then (1 : ℚ) else speed) < 1 / 2 ∨
        (if speed = 0 then (1 : ℚ) else speed) > 2
    · rw [if_pos hcond] at hv
      exact absurd hv (by simp)
    · rw [if_neg hcond] at hv
      push_neg at hcond
      obtain ⟨hl, hr⟩ := hcond
      obtain rfl := Option.some.inj hv
      exact ⟨hl, hr, rfl⟩
  · unfold handleSpeed
    by_cases hcond : (if speed = 0 then (1 : ℚ) else speed) < 1 / 2 ∨
        (if speed = 0 then (1 : ℚ) else speed) > 2
    · rw [if_pos hcond]
      simpa using hcond
    · rw [if_neg hcond]
      simpa using hcond

/-- Witness for C9 amended: requested speed 1.5 is passed through unchanged
and lies in [0.5, 2.0]. -/
theorem handleSpeed_range_witness :
    handleSpeed (3 / 2) = some (3 / 2) ∧
    1 / 2 ≤ (3 / 2 : ℚ) ∧ (3 / 2 : ℚ) ≤ 2 ∧
    (3 / 2 : ℚ) = (if (3 / 2 : ℚ) = 0 then 1 else 3 / 2) := by
  have hs : handleSpeed (3 / 2) = some (3 / 2) := by norm_num [handleSpeed]
  have h := (handleSpeed_range (3 / 2)).1 (3 / 2) hs
  exact ⟨hs, h.1, h.2.1, h.2.2⟩

end VolcTTS

